import Mathlib

/-!
Verification of the device-session and instrument-state layer of the
`waveforms-sdk` Rust wrapper (a typed binding to the Digilent WaveForms
native SDK).

The development shallowly embeds the wrapper's core protocols:
* the closed-set enumeration protocol generated by the `enum_only!` and
  `enum_and_support_bitfield!` macros (`src/macros.rs`): typed variant →
  native integer (`Into`) and native integer → typed variant (`TryFrom`,
  failing with `UnknownVariant`), plus the supported-set bitfield decoding;
* the structured error model (`WaveFormsError`, `WaveFormsErrorCode::get`,
  `WaveFormsError::get` in `src/lib.rs`);
* the call-translation macros (`get_int!`, `get_bool!`, `get_string!`,
  `call!`, `set_true!`, `set_false!`), with the native layer modelled as an
  explicit state (opened indices, global last-error slot, call trace);
* device discovery, `Device::open` / `Device::open_with_config`,
  `DeviceHandle::close` / `Drop`, and the instrument front-end state
  queries.

Native integers (`c_int`, `c_uchar`, `c_uint`) are modelled as `Int`
(bitmask arguments of the supported-set decoder are modelled by their bit
pattern as a `Nat`).  A Rust `panic` (an `unwrap` of a failed result) is
modelled as `Option.none`.  Wire constants named `devid…`, `trigsrc…`,
`DwfState…`, `acqmode…`, `filter…`, `trigtype…`, `triglen…`, `dwferc…`,
`enumfilter…`, `DwfTriggerSlope…`, `DwfDigitalIn…`, `DwfDigitalOut…` come
from the vendor header `dwf.h`; the crate's `bindings` module is generated
from that header at build time (`build.rs`) and is not part of `src/`.
-/

namespace WaveForms

/-! ### Wire constants (vendor header `dwf.h`, via the generated bindings) -/

def enumfilterAll : Int := 0
def enumfilterEExplorer : Int := 1
def enumfilterDiscovery : Int := 2
def enumfilterDiscovery2 : Int := 3
def enumfilterDDiscovery : Int := 4

def devidEExplorer : Int := 1
def devidDiscovery : Int := 2
def devidDiscovery2 : Int := 3
def devidDDiscovery : Int := 4
def devidADP3X50 : Int := 6

def trigsrcNone : Int := 0
def trigsrcPC : Int := 1
def trigsrcDetectorAnalogIn : Int := 2
def trigsrcDetectorDigitalIn : Int := 3
def trigsrcAnalogIn : Int := 4
def trigsrcDigitalIn : Int := 5
def trigsrcDigitalOut : Int := 6
def trigsrcAnalogOut1 : Int := 7
def trigsrcAnalogOut2 : Int := 8
def trigsrcAnalogOut3 : Int := 9
def trigsrcAnalogOut4 : Int := 10
def trigsrcExternal1 : Int := 11
def trigsrcExternal2 : Int := 12
def trigsrcExternal3 : Int := 13
def trigsrcExternal4 : Int := 14
def trigsrcHigh : Int := 15
def trigsrcLow : Int := 16

def DwfStateReady : Int := 0
def DwfStateConfig : Int := 4
def DwfStatePrefill : Int := 5
def DwfStateArmed : Int := 1
def DwfStateWait : Int := 7
def DwfStateTriggered : Int := 3
def DwfStateRunning : Int := 3
def DwfStateDone : Int := 2

def acqmodeSingle : Int := 0
def acqmodeScanShift : Int := 1
def acqmodeScanScreen : Int := 2
def acqmodeRecord : Int := 3
def acqmodeOvers : Int := 4
def acqmodeSingle1 : Int := 5

def filterDecimate : Int := 0
def filterAverage : Int := 1
def filterMinMax : Int := 2

def trigtypeEdge : Int := 0
def trigtypePulse : Int := 1
def trigtypeTransition : Int := 2
def trigtypeWindow : Int := 3

def DwfTriggerSlopeRise : Int := 0
def DwfTriggerSlopeFall : Int := 1
def DwfTriggerSlopeEither : Int := 2

def triglenLess : Int := 0
def triglenTimeout : Int := 1
def triglenMore : Int := 2

def DwfDigitalInClockSourceInternal : Int := 0
def DwfDigitalInClockSourceExternal : Int := 1
def DwfDigitalInClockSourceExternal2 : Int := 2

def DwfDigitalInSampleModeSimple : Int := 0
def DwfDigitalInSampleModeNoise : Int := 1

def DwfDigitalOutOutputPushPull : Int := 0
def DwfDigitalOutOutputOpenDrain : Int := 1
def DwfDigitalOutOutputOpenSource : Int := 2
def DwfDigitalOutOutputThreeState : Int := 3

def DwfDigitalOutTypePulse : Int := 0
def DwfDigitalOutTypeCustom : Int := 1
def DwfDigitalOutTypeRandom : Int := 2
def DwfDigitalOutTypeROM : Int := 3
def DwfDigitalOutTypeState : Int := 4
def DwfDigitalOutTypePlay : Int := 5

def DwfDigitalOutIdleInit : Int := 0
def DwfDigitalOutIdleLow : Int := 1
def DwfDigitalOutIdleHigh : Int := 2
def DwfDigitalOutIdleZet : Int := 3

def dwfercNoErc : Int := 0
def dwfercUnknownError : Int := 1
def dwfercApiLockTimeout : Int := 2
def dwfercAlreadyOpened : Int := 3
def dwfercNotSupported : Int := 4
def dwfercInvalidParameter0 : Int := 16
def dwfercInvalidParameter1 : Int := 17
def dwfercInvalidParameter2 : Int := 18
def dwfercInvalidParameter3 : Int := 19
def dwfercInvalidParameter4 : Int := 20

/-! ### Error model (`src/lib.rs`) -/

/-- Error-kind taxonomy of the wrapper, mirroring `WaveFormsErrorCode` in
`src/lib.rs`. -/
inductive WaveFormsErrorCode where
  | Unknown
  | ApiLockTimeout
  | AlreadyOpened
  | NotSupported
  | InvalidParameter (n : Nat)
  | Other
  | UnknownVariant
deriving DecidableEq, Repr

/-- Structured error of the wrapper, mirroring `WaveFormsError` in
`src/lib.rs`: an error kind plus the device-reported reason string. -/
structure WaveFormsError where
  error_code : WaveFormsErrorCode
  reason : String
deriving DecidableEq, Repr

/-- Mapping of the native last-error code to the typed error kind,
mirroring `WaveFormsErrorCode::get` in `src/lib.rs` (match arms in source
order; any other code, including `dwfercNoErc`, falls through to `Other`). -/
def WaveFormsErrorCode.get (error_code : Int) : WaveFormsErrorCode :=
  if error_code = dwfercUnknownError then .Unknown
  else if error_code = dwfercApiLockTimeout then .ApiLockTimeout
  else if error_code = dwfercAlreadyOpened then .AlreadyOpened
  else if error_code = dwfercNotSupported then .NotSupported
  else if error_code = dwfercInvalidParameter0 then .InvalidParameter 0
  else if error_code = dwfercInvalidParameter1 then .InvalidParameter 1
  else if error_code = dwfercInvalidParameter2 then .InvalidParameter 2
  else if error_code = dwfercInvalidParameter3 then .InvalidParameter 3
  else if error_code = dwfercInvalidParameter4 then .InvalidParameter 4
  else .Other

/-- Contents of the native layer's global single-slot last-error state:
the last error code (read by `FDwfGetLastError`) and the last error
message (read by `FDwfGetLastErrorMsg`). -/
structure GlobalSlot where
  code : Int
  msg : String
deriving DecidableEq, Repr

/-- Construction of the structured error from the global last-error slot,
mirroring `WaveFormsError::get` in `src/lib.rs` (`error_code` is retrieved
first via `FDwfGetLastError`, then the reason via `FDwfGetLastErrorMsg`). -/
def WaveFormsError.get (slot : GlobalSlot) : WaveFormsError :=
  { error_code := WaveFormsErrorCode.get slot.code, reason := slot.msg }

/-- Reason string produced by the macro-generated `TryFrom` on an unknown
wire integer (the `format!` call in `enum_only!` and
`enum_and_support_bitfield!`, `src/macros.rs`). -/
def unknownVariantReason (other : Int) (name : String) : String :=
  "WaveForms SDK returned `" ++ toString other ++
    "` which is not a known variant of " ++ name

/-! ### Closed-set enumeration types

Each `enum_only!` / `enum_and_support_bitfield!` invocation generates an
enum, an `Into<native integer>` (`into` below, one match arm per variant)
and a `TryFrom<native integer>` (`tryFrom` below, match arms in variant
declaration order, with a catch-all arm producing the `UnknownVariant`
error).  The embeddings below mirror each generated instance. -/

/-- Filter for `iter_devices` (`enum_only!` in `src/lib.rs`). -/
inductive DetectFilter where
  | All
  | ElectronicsExplorer
  | AnalogDiscovery
  | AnalogDiscovery2
  | DigitalDiscovery
deriving DecidableEq, Repr

def DetectFilter.into : DetectFilter → Int
  | .All => enumfilterAll
  | .ElectronicsExplorer => enumfilterEExplorer
  | .AnalogDiscovery => enumfilterDiscovery
  | .AnalogDiscovery2 => enumfilterDiscovery2
  | .DigitalDiscovery => enumfilterDDiscovery

def DetectFilter.tryFrom (x : Int) : Except WaveFormsError DetectFilter :=
  if x = enumfilterAll then .ok .All
  else if x = enumfilterEExplorer then .ok .ElectronicsExplorer
  else if x = enumfilterDiscovery then .ok .AnalogDiscovery
  else if x = enumfilterDiscovery2 then .ok .AnalogDiscovery2
  else if x = enumfilterDDiscovery then .ok .DigitalDiscovery
  else .error { reason := unknownVariantReason x ("DetectFilter"),
                error_code := .UnknownVariant }

/-- Device type (`enum_only!` in `src/lib.rs`; five variants — the legacy
six-variant `DeviceType` of `src/enums.rs` is not declared in the crate's
module tree). -/
inductive DeviceType where
  | ElectronicsExplorer
  | AnalogDiscovery
  | AnalogDiscovery2
  | DigitalDiscovery
  | AnalogDiscoveryPro
deriving DecidableEq, Repr

def DeviceType.into : DeviceType → Int
  | .ElectronicsExplorer => devidEExplorer
  | .AnalogDiscovery => devidDiscovery
  | .AnalogDiscovery2 => devidDiscovery2
  | .DigitalDiscovery => devidDDiscovery
  | .AnalogDiscoveryPro => devidADP3X50

def DeviceType.tryFrom (x : Int) : Except WaveFormsError DeviceType :=
  if x = devidEExplorer then .ok .ElectronicsExplorer
  else if x = devidDiscovery then .ok .AnalogDiscovery
  else if x = devidDiscovery2 then .ok .AnalogDiscovery2
  else if x = devidDDiscovery then .ok .DigitalDiscovery
  else if x = devidADP3X50 then .ok .AnalogDiscoveryPro
  else .error { reason := unknownVariantReason x ("DeviceType"),
                error_code := .UnknownVariant }

/-- Global trigger bus sources (`enum_and_support_bitfield!` in
`src/lib.rs`; native type `c_uchar`). -/
inductive TriggerSource where
  | None
  | Pc
  | DetectorAnalogIn
  | DetectorDigitalIn
  | AnalogIn
  | DigitalIn
  | AnalogOut1
  | AnalogOut2
  | AnalogOut3
  | AnalogOut4
  | External
  | External2
  | External3
  | External4
  | High
  | Low
deriving DecidableEq, Repr

def TriggerSource.into : TriggerSource → Int
  | .None => trigsrcNone
  | .Pc => trigsrcPC
  | .DetectorAnalogIn => trigsrcDetectorAnalogIn
  | .DetectorDigitalIn => trigsrcDetectorDigitalIn
  | .AnalogIn => trigsrcAnalogIn
  | .DigitalIn => trigsrcDigitalIn
  | .AnalogOut1 => trigsrcAnalogOut1
  | .AnalogOut2 => trigsrcAnalogOut2
  | .AnalogOut3 => trigsrcAnalogOut3
  | .AnalogOut4 => trigsrcAnalogOut4
  | .External => trigsrcExternal1
  | .External2 => trigsrcExternal2
  | .External3 => trigsrcExternal3
  | .External4 => trigsrcExternal4
  | .High => trigsrcHigh
  | .Low => trigsrcLow

def TriggerSource.tryFrom (x : Int) : Except WaveFormsError TriggerSource :=
  if x = trigsrcNone then .ok .None
  else if x = trigsrcPC then .ok .Pc
  else if x = trigsrcDetectorAnalogIn then .ok .DetectorAnalogIn
  else if x = trigsrcDetectorDigitalIn then .ok .DetectorDigitalIn
  else if x = trigsrcAnalogIn then .ok .AnalogIn
  else if x = trigsrcDigitalIn then .ok .DigitalIn
  else if x = trigsrcAnalogOut1 then .ok .AnalogOut1
  else if x = trigsrcAnalogOut2 then .ok .AnalogOut2
  else if x = trigsrcAnalogOut3 then .ok .AnalogOut3
  else if x = trigsrcAnalogOut4 then .ok .AnalogOut4
  else if x = trigsrcExternal1 then .ok .External
  else if x = trigsrcExternal2 then .ok .External2
  else if x = trigsrcExternal3 then .ok .External3
  else if x = trigsrcExternal4 then .ok .External4
  else if x = trigsrcHigh then .ok .High
  else if x = trigsrcLow then .ok .Low
  else .error { reason := unknownVariantReason x ("TriggerSource"),
                error_code := .UnknownVariant }

/-- Acquisition modes (`enum_and_support_bitfield!` in `src/lib.rs`). -/
inductive AcquisitionMode where
  | Single
  | ScanShift
  | ScanScreen
  | Record
  | Overs
  | SingleWithoutRearm
deriving DecidableEq, Repr

def AcquisitionMode.into : AcquisitionMode → Int
  | .Single => acqmodeSingle
  | .ScanShift => acqmodeScanShift
  | .ScanScreen => acqmodeScanScreen
  | .Record => acqmodeRecord
  | .Overs => acqmodeOvers
  | .SingleWithoutRearm => acqmodeSingle1

def AcquisitionMode.tryFrom (x : Int) : Except WaveFormsError AcquisitionMode :=
  if x = acqmodeSingle then .ok .Single
  else if x = acqmodeScanShift then .ok .ScanShift
  else if x = acqmodeScanScreen then .ok .ScanScreen
  else if x = acqmodeRecord then .ok .Record
  else if x = acqmodeOvers then .ok .Overs
  else if x = acqmodeSingle1 then .ok .SingleWithoutRearm
  else .error { reason := unknownVariantReason x ("AcquisitionMode"),
                error_code := .UnknownVariant }

/-- Shared instrument lifecycle states (`enum_only!` in `src/lib.rs`;
native type `c_uchar`; variants in source declaration order).  The vendor
header gives `Running` and `Triggered` the same wire value 3; the binding
declares only `Running`. -/
inductive InstrumentState where
  | Ready
  | Armed
  | Done
  | Running
  | Config
  | Prefill
  | Wait
deriving DecidableEq, Repr

def InstrumentState.into : InstrumentState → Int
  | .Ready => DwfStateReady
  | .Armed => DwfStateArmed
  | .Done => DwfStateDone
  | .Running => DwfStateRunning
  | .Config => DwfStateConfig
  | .Prefill => DwfStatePrefill
  | .Wait => DwfStateWait

def InstrumentState.tryFrom (x : Int) : Except WaveFormsError InstrumentState :=
  if x = DwfStateReady then .ok .Ready
  else if x = DwfStateArmed then .ok .Armed
  else if x = DwfStateDone then .ok .Done
  else if x = DwfStateRunning then .ok .Running
  else if x = DwfStateConfig then .ok .Config
  else if x = DwfStatePrefill then .ok .Prefill
  else if x = DwfStateWait then .ok .Wait
  else .error { reason := unknownVariantReason x ("InstrumentState"),
                error_code := .UnknownVariant }

/-- Sampling/trigger slope (`enum_and_support_bitfield!` in
`src/analog/scope.rs`). -/
inductive SamplingSlope where
  | Rise
  | Fall
  | Either
deriving DecidableEq, Repr

def SamplingSlope.into : SamplingSlope → Int
  | .Rise => DwfTriggerSlopeRise
  | .Fall => DwfTriggerSlopeFall
  | .Either => DwfTriggerSlopeEither

def SamplingSlope.tryFrom (x : Int) : Except WaveFormsError SamplingSlope :=
  if x = DwfTriggerSlopeRise then .ok .Rise
  else if x = DwfTriggerSlopeFall then .ok .Fall
  else if x = DwfTriggerSlopeEither then .ok .Either
  else .error { reason := unknownVariantReason x ("SamplingSlope"),
                error_code := .UnknownVariant }

/-- Acquisition filter (`enum_and_support_bitfield!` in
`src/analog/scope.rs`). -/
inductive Filter where
  | Decimate
  | Average
  | MinMax
deriving DecidableEq, Repr

def Filter.into : Filter → Int
  | .Decimate => filterDecimate
  | .Average => filterAverage
  | .MinMax => filterMinMax

def Filter.tryFrom (x : Int) : Except WaveFormsError Filter :=
  if x = filterDecimate then .ok .Decimate
  else if x = filterAverage then .ok .Average
  else if x = filterMinMax then .ok .MinMax
  else .error { reason := unknownVariantReason x ("Filter"),
                error_code := .UnknownVariant }

/-- Analog-in trigger type (`enum_and_support_bitfield!` in
`src/analog/scope.rs`). -/
inductive TriggerType where
  | Edge
  | Pulse
  | Transition
  | Window
deriving DecidableEq, Repr

def TriggerType.into : TriggerType → Int
  | .Edge => trigtypeEdge
  | .Pulse => trigtypePulse
  | .Transition => trigtypeTransition
  | .Window => trigtypeWindow

def TriggerType.tryFrom (x : Int) : Except WaveFormsError TriggerType :=
  if x = trigtypeEdge then .ok .Edge
  else if x = trigtypePulse then .ok .Pulse
  else if x = trigtypeTransition then .ok .Transition
  else if x = trigtypeWindow then .ok .Window
  else .error { reason := unknownVariantReason x ("TriggerType"),
                error_code := .UnknownVariant }

/-- Analog-in trigger condition (`enum_and_support_bitfield!` in
`src/analog/scope.rs`; same wire values as `TriggerType`). -/
inductive TriggerCondition where
  | Edge
  | Pulse
  | Transition
  | Window
deriving DecidableEq, Repr

def TriggerCondition.into : TriggerCondition → Int
  | .Edge => trigtypeEdge
  | .Pulse => trigtypePulse
  | .Transition => trigtypeTransition
  | .Window => trigtypeWindow

def TriggerCondition.tryFrom (x : Int) : Except WaveFormsError TriggerCondition :=
  if x = trigtypeEdge then .ok .Edge
  else if x = trigtypePulse then .ok .Pulse
  else if x = trigtypeTransition then .ok .Transition
  else if x = trigtypeWindow then .ok .Window
  else .error { reason := unknownVariantReason x ("TriggerCondition"),
                error_code := .UnknownVariant }

/-- Trigger length condition (`enum_and_support_bitfield!` in
`src/analog/scope.rs`). -/
inductive TriggerLength where
  | Less
  | Timeout
  | More
deriving DecidableEq, Repr

def TriggerLength.into : TriggerLength → Int
  | .Less => triglenLess
  | .Timeout => triglenTimeout
  | .More => triglenMore

def TriggerLength.tryFrom (x : Int) : Except WaveFormsError TriggerLength :=
  if x = triglenLess then .ok .Less
  else if x = triglenTimeout then .ok .Timeout
  else if x = triglenMore then .ok .More
  else .error { reason := unknownVariantReason x ("TriggerLength"),
                error_code := .UnknownVariant }

/-- Digital-in clock source (`enum_and_support_bitfield!` in
`src/digital/analyzer.rs`). -/
inductive ClockSource where
  | Internal
  | External
  | External2
deriving DecidableEq, Repr

def ClockSource.into : ClockSource → Int
  | .Internal => DwfDigitalInClockSourceInternal
  | .External => DwfDigitalInClockSourceExternal
  | .External2 => DwfDigitalInClockSourceExternal2

def ClockSource.tryFrom (x : Int) : Except WaveFormsError ClockSource :=
  if x = DwfDigitalInClockSourceInternal then .ok .Internal
  else if x = DwfDigitalInClockSourceExternal then .ok .External
  else if x = DwfDigitalInClockSourceExternal2 then .ok .External2
  else .error { reason := unknownVariantReason x ("ClockSource"),
                error_code := .UnknownVariant }

/-- Digital-in sample mode (`enum_and_support_bitfield!` in
`src/digital/analyzer.rs`). -/
inductive SampleMode where
  | Simple
  | Noise
deriving DecidableEq, Repr

def SampleMode.into : SampleMode → Int
  | .Simple => DwfDigitalInSampleModeSimple
  | .Noise => DwfDigitalInSampleModeNoise

def SampleMode.tryFrom (x : Int) : Except WaveFormsError SampleMode :=
  if x = DwfDigitalInSampleModeSimple then .ok .Simple
  else if x = DwfDigitalInSampleModeNoise then .ok .Noise
  else .error { reason := unknownVariantReason x ("SampleMode"),
                error_code := .UnknownVariant }

/-- Digital-out output mode (`enum_and_support_bitfield!` in
`src/digital/gen.rs`; source name `Mode`). -/
inductive Mode where
  | PushPull
  | OpenDrain
  | OpenSource
  | Tristate
deriving DecidableEq, Repr

def Mode.into : Mode → Int
  | .PushPull => DwfDigitalOutOutputPushPull
  | .OpenDrain => DwfDigitalOutOutputOpenDrain
  | .OpenSource => DwfDigitalOutOutputOpenSource
  | .Tristate => DwfDigitalOutOutputThreeState

def Mode.tryFrom (x : Int) : Except WaveFormsError Mode :=
  if x = DwfDigitalOutOutputPushPull then .ok .PushPull
  else if x = DwfDigitalOutOutputOpenDrain then .ok .OpenDrain
  else if x = DwfDigitalOutOutputOpenSource then .ok .OpenSource
  else if x = DwfDigitalOutOutputThreeState then .ok .Tristate
  else .error { reason := unknownVariantReason x ("Mode"),
                error_code := .UnknownVariant }

/-- Digital-out signal type (`enum_and_support_bitfield!` in
`src/digital/gen.rs`; source name `Type`, renamed here because `Type` is a
Lean keyword). -/
inductive DigitalOutType where
  | Pulse
  | Custom
  | Random
  | ROM
  | State
  | Play
deriving DecidableEq, Repr

def DigitalOutType.into : DigitalOutType → Int
  | .Pulse => DwfDigitalOutTypePulse
  | .Custom => DwfDigitalOutTypeCustom
  | .Random => DwfDigitalOutTypeRandom
  | .ROM => DwfDigitalOutTypeROM
  | .State => DwfDigitalOutTypeState
  | .Play => DwfDigitalOutTypePlay

def DigitalOutType.tryFrom (x : Int) : Except WaveFormsError DigitalOutType :=
  if x = DwfDigitalOutTypePulse then .ok .Pulse
  else if x = DwfDigitalOutTypeCustom then .ok .Custom
  else if x = DwfDigitalOutTypeRandom then .ok .Random
  else if x = DwfDigitalOutTypeROM then .ok .ROM
  else if x = DwfDigitalOutTypeState then .ok .State
  else if x = DwfDigitalOutTypePlay then .ok .Play
  else .error { reason := unknownVariantReason x ("Type"),
                error_code := .UnknownVariant }

/-- Digital-out idle behavior (`enum_and_support_bitfield!` in
`src/digital/gen.rs`; source name `Idle`). -/
inductive Idle where
  | Init
  | Low
  | High
  | Tristate
deriving DecidableEq, Repr

def Idle.into : Idle → Int
  | .Init => DwfDigitalOutIdleInit
  | .Low => DwfDigitalOutIdleLow
  | .High => DwfDigitalOutIdleHigh
  | .Tristate => DwfDigitalOutIdleZet

def Idle.tryFrom (x : Int) : Except WaveFormsError Idle :=
  if x = DwfDigitalOutIdleInit then .ok .Init
  else if x = DwfDigitalOutIdleLow then .ok .Low
  else if x = DwfDigitalOutIdleHigh then .ok .High
  else if x = DwfDigitalOutIdleZet then .ok .Tristate
  else .error { reason := unknownVariantReason x ("Idle"),
                error_code := .UnknownVariant }

/-- Play-data bitrate (`enum_only!` in `src/digital/gen.rs`; wire values
are integer literals in the source; native type `c_uint`). -/
inductive Bitrate where
  | One
  | Two
  | Four
  | Eight
  | Sixteen
deriving DecidableEq, Repr

def Bitrate.into : Bitrate → Int
  | .One => 1
  | .Two => 2
  | .Four => 4
  | .Eight => 8
  | .Sixteen => 16

def Bitrate.tryFrom (x : Int) : Except WaveFormsError Bitrate :=
  if x = 1 then .ok .One
  else if x = 2 then .ok .Two
  else if x = 4 then .ok .Four
  else if x = 8 then .ok .Eight
  else if x = 16 then .ok .Sixteen
  else .error { reason := unknownVariantReason x ("Bitrate"),
                error_code := .UnknownVariant }

/-! ### Supported-set bitfield decoding (`enum_and_support_bitfield!`)

The macro also generates, per enumeration, a `Supported…s` struct with one
`bool` field per variant and a `From<c_int>` impl whose field initializer
for a variant with wire value `value` is
`(x & ((1 as c_int) << value)) != 0 || value == 0`
(the commented exception: wire value 0 is always reported supported).
A struct with one `bool` field per variant is modelled as the function
sending each variant to the value of its field; the `c_int` bitmask is
modelled by its bit pattern as a `Nat`. -/

/-- Field initializer generated by `enum_and_support_bitfield!`
(`src/macros.rs`, `From<c_int>` impl) for a variant of wire value
`value`. -/
def supportBit (x : Nat) (value : Nat) : Bool :=
  ((x &&& (1 <<< value)) != 0) || (value == 0)

/-- `From<c_int> for SupportedTriggerSources` (`src/lib.rs`). -/
def SupportedTriggerSources.ofMask (x : Nat) : TriggerSource → Bool :=
  fun v => supportBit x (TriggerSource.into v).toNat

/-- `From<c_int> for SupportedAcquisitionModes` (`src/lib.rs`). -/
def SupportedAcquisitionModes.ofMask (x : Nat) : AcquisitionMode → Bool :=
  fun v => supportBit x (AcquisitionMode.into v).toNat

/-- `From<c_int> for SupportedSamplingSlopes` (`src/analog/scope.rs`). -/
def SupportedSamplingSlopes.ofMask (x : Nat) : SamplingSlope → Bool :=
  fun v => supportBit x (SamplingSlope.into v).toNat

/-- `From<c_int> for SupportedFilters` (`src/analog/scope.rs`). -/
def SupportedFilters.ofMask (x : Nat) : Filter → Bool :=
  fun v => supportBit x (Filter.into v).toNat

/-- `From<c_int> for SupportedTriggerTypes` (`src/analog/scope.rs`). -/
def SupportedTriggerTypes.ofMask (x : Nat) : TriggerType → Bool :=
  fun v => supportBit x (TriggerType.into v).toNat

/-- `From<c_int> for SupportedTriggerConditions` (`src/analog/scope.rs`). -/
def SupportedTriggerConditions.ofMask (x : Nat) : TriggerCondition → Bool :=
  fun v => supportBit x (TriggerCondition.into v).toNat

/-- `From<c_int> for SupportedTriggerLengths` (`src/analog/scope.rs`). -/
def SupportedTriggerLengths.ofMask (x : Nat) : TriggerLength → Bool :=
  fun v => supportBit x (TriggerLength.into v).toNat

/-- `From<c_int> for SupportedClockSources` (`src/digital/analyzer.rs`). -/
def SupportedClockSources.ofMask (x : Nat) : ClockSource → Bool :=
  fun v => supportBit x (ClockSource.into v).toNat

/-- `From<c_int> for SupportedSampleModes` (`src/digital/analyzer.rs`). -/
def SupportedSampleModes.ofMask (x : Nat) : SampleMode → Bool :=
  fun v => supportBit x (SampleMode.into v).toNat

/-- `From<c_int> for SupportedModes` (`src/digital/gen.rs`). -/
def SupportedModes.ofMask (x : Nat) : Mode → Bool :=
  fun v => supportBit x (Mode.into v).toNat

/-- `From<c_int> for SupportedTypes` (`src/digital/gen.rs`). -/
def SupportedTypes.ofMask (x : Nat) : DigitalOutType → Bool :=
  fun v => supportBit x (DigitalOutType.into v).toNat

/-- `From<c_int> for SupportedIdles` (`src/digital/gen.rs`). -/
def SupportedIdles.ofMask (x : Nat) : Idle → Bool :=
  fun v => supportBit x (Idle.into v).toNat

/-! ### Call-translation protocol against a single native response -/

/-- Observed behavior of one native call: the returned success flag, the
integer written through the out-parameter, and the contents of the global
last-error slot as the call leaves it. -/
structure NativeResp where
  flag : Int
  out : Int
  slot : GlobalSlot
deriving DecidableEq, Repr

/-- The `get_int!` macro (`src/macros.rs`) applied to one native response:
a nonzero flag yields `Ok(val)`, a zero flag yields
`Err(WaveFormsError::get())` read from the slot the call left. -/
def getIntR (r : NativeResp) : Except WaveFormsError Int :=
  if r.flag != 0 then .ok r.out else .error (WaveFormsError.get r.slot)

/-- The `call!` / `set_true!` / `set_false!` macros (`src/macros.rs`)
applied to one native response. -/
def callR (r : NativeResp) : Except WaveFormsError Unit :=
  if r.flag != 0 then .ok () else .error (WaveFormsError.get r.slot)

/-- The `get_string!` macro (`src/macros.rs`) applied to one native
response writing the string `out`. -/
def getStringR (flag : Int) (out : String) (slot : GlobalSlot) :
    Except WaveFormsError String :=
  if flag != 0 then .ok out else .error (WaveFormsError.get slot)

/-- Protocol-level record of the native calls issued by one use of a
call-translation macro. -/
inductive PCall where
  | invoke
  | getLastError
  | getLastErrorMsg
deriving DecidableEq, Repr

/-- The `get_int!` macro with its native-call trace made explicit: the
wrapped entry point is invoked (writing `out` and leaving `slotAfter` in
the global last-error slot); on a zero flag, `WaveFormsError::get`
immediately issues `FDwfGetLastError` and then `FDwfGetLastErrorMsg`
against the still-unchanged slot. -/
def getIntTraced (flag out : Int) (slotAfter : GlobalSlot) :
    Except WaveFormsError Int × GlobalSlot × List PCall :=
  if flag != 0 then
    (.ok out, slotAfter, [.invoke])
  else
    (.error (WaveFormsError.get slotAfter), slotAfter,
      [.invoke, .getLastError, .getLastErrorMsg])

/-! ### Session lifecycle: native state, open, close -/

/-- Native calls issued across the FFI boundary, as recorded in session
traces. -/
inductive NCall where
  | enumIsOpened (idx : Int)
  | deviceOpen (idx : Int)
  | deviceConfigOpen (idx cfg : Int)
  | deviceClose (h : Int)
  | analogInStatus (h : Int) (readData : Bool)
  | digitalInStatus (h : Int) (readData : Bool)
  | digitalOutStatus (h : Int)
  | getLastError
  | getLastErrorMsg
deriving DecidableEq, Repr

/-- State of the native layer: which enumeration indices are currently
opened, the next session identifier to hand out, the global last-error
slot, and the trace of native calls issued so far. -/
structure NativeState where
  opened : List Int
  nextHandle : Int
  slot : GlobalSlot
  trace : List NCall
deriving DecidableEq, Repr

/-- Modelled from the spec: native `FDwfEnumDeviceIsOpened` — the
discovery-protocol per-index query reporting whether the index is
currently opened; it succeeds, writing 1 or 0 through the out-parameter
(returns success flag, out value, new state). -/
def natEnumDeviceIsOpened (idx : Int) (s : NativeState) :
    Int × Int × NativeState :=
  (1, if idx ∈ s.opened then 1 else 0,
    { s with slot := { code := dwfercNoErc, msg := "" },
             trace := s.trace ++ [.enumIsOpened idx] })

/-- Modelled from the spec: native `FDwfDeviceOpen` — "index in → opaque
integer session identifier out, or failure".  On a free index it succeeds
with a fresh identifier; on an index already opened its error reporting is
unreliable (which is why the wrapper checks first). -/
def natDeviceOpen (idx : Int) (s : NativeState) : Int × Int × NativeState :=
  if idx ∈ s.opened then
    (0, 0, { s with slot := { code := dwfercAlreadyOpened, msg := "native open failed" },
                    trace := s.trace ++ [.deviceOpen idx] })
  else
    (1, s.nextHandle,
      { s with opened := idx :: s.opened,
               nextHandle := s.nextHandle + 1,
               slot := { code := dwfercNoErc, msg := "" },
               trace := s.trace ++ [.deviceOpen idx] })

/-- Modelled from the spec: native `FDwfDeviceConfigOpen` — like
`FDwfDeviceOpen` with an explicit configuration index. -/
def natDeviceConfigOpen (idx cfg : Int) (s : NativeState) :
    Int × Int × NativeState :=
  if idx ∈ s.opened then
    (0, 0, { s with slot := { code := dwfercAlreadyOpened, msg := "native open failed" },
                    trace := s.trace ++ [.deviceConfigOpen idx cfg] })
  else
    (1, s.nextHandle,
      { s with opened := idx :: s.opened,
               nextHandle := s.nextHandle + 1,
               slot := { code := dwfercNoErc, msg := "" },
               trace := s.trace ++ [.deviceConfigOpen idx cfg] })

/-- Modelled from the spec: native `FDwfDeviceClose` — release of the
session; the release contract assumes it does not meaningfully fail
(the claims proved below do not depend on the released index
bookkeeping). -/
def natDeviceClose (h : Int) (s : NativeState) : Int × NativeState :=
  (1, { s with slot := { code := dwfercNoErc, msg := "" },
               trace := s.trace ++ [.deviceClose h] })

/-- Retrieval of the structured error after a failing call on the session
model, mirroring `WaveFormsError::get` (`src/lib.rs`): `FDwfGetLastError`
(mapped by `WaveFormsErrorCode::get`), then `FDwfGetLastErrorMsg`, both
reading the global slot. -/
def errGet (s : NativeState) : WaveFormsError × NativeState :=
  (WaveFormsError.get s.slot,
    { s with trace := s.trace ++ [.getLastError, .getLastErrorMsg] })

/-- The `get_bool!` macro applied to `FDwfEnumDeviceIsOpened`
(`src/macros.rs`, used by `Device::open` and
`Device::open_with_config`). -/
def getBoolEnumDeviceIsOpened (idx : Int) (s : NativeState) :
    Except WaveFormsError Bool × NativeState :=
  let (res, val, s') := natEnumDeviceIsOpened idx s
  if res != 0 then (.ok (val != 0), s')
  else
    let (e, s'') := errGet s'
    (.error e, s'')

/-- The `get_int!` macro applied to `FDwfDeviceOpen`. -/
def getIntDeviceOpen (idx : Int) (s : NativeState) :
    Except WaveFormsError Int × NativeState :=
  let (res, val, s') := natDeviceOpen idx s
  if res != 0 then (.ok val, s')
  else
    let (e, s'') := errGet s'
    (.error e, s'')

/-- The `get_int!` macro applied to `FDwfDeviceConfigOpen`. -/
def getIntDeviceConfigOpen (idx cfg : Int) (s : NativeState) :
    Except WaveFormsError Int × NativeState :=
  let (res, val, s') := natDeviceConfigOpen idx cfg s
  if res != 0 then (.ok val, s')
  else
    let (e, s'') := errGet s'
    (.error e, s'')

/-- The `call!` macro applied to `FDwfDeviceClose`. -/
def callDeviceClose (h : Int) (s : NativeState) :
    Except WaveFormsError Unit × NativeState :=
  let (res, s') := natDeviceClose h s
  if res != 0 then (.ok (), s')
  else
    let (e, s'') := errGet s'
    (.error e, s'')

/-- Discovered-but-unopened device descriptor (`Device` in `src/lib.rs`);
of its fields only the enumeration index participates in the session
claims (type, names, serial and configs are read-only discovery data). -/
structure Device where
  index : Int
deriving DecidableEq, Repr

/-- One configuration alternative (`Config` in `src/lib.rs`); only its
index participates in the session claims. -/
structure Config where
  index : Int
deriving DecidableEq, Repr

/-- Exclusive session handle (`DeviceHandle` in `src/lib.rs`): wraps the
optional native session identifier. -/
structure DeviceHandle where
  handle : Option Int
deriving DecidableEq, Repr

/-- `Device::open` (`src/lib.rs`): the wrapper's own "already opened"
check via `get_bool!(FDwfEnumDeviceIsOpened self.index)?` comes first,
returning the `AlreadyOpened` error without attempting the native open;
only then `get_int!(FDwfDeviceOpen self.index)?` runs and the handle is
constructed with `Some(handle)`. -/
def Device.openDev (d : Device) (s : NativeState) :
    Except WaveFormsError DeviceHandle × NativeState :=
  match getBoolEnumDeviceIsOpened d.index s with
  | (.error e, s') => (.error e, s')
  | (.ok true, s') =>
      (.error { reason := "device was already opened",
                error_code := .AlreadyOpened }, s')
  | (.ok false, s') =>
      match getIntDeviceOpen d.index s' with
      | (.error e, s'') => (.error e, s'')
      | (.ok handle, s'') => (.ok { handle := some handle }, s'')

/-- `Device::open_with_config` (`src/lib.rs`): same fail-fast check, then
`FDwfDeviceConfigOpen`. -/
def Device.open_with_config (d : Device) (c : Config) (s : NativeState) :
    Except WaveFormsError DeviceHandle × NativeState :=
  match getBoolEnumDeviceIsOpened d.index s with
  | (.error e, s') => (.error e, s')
  | (.ok true, s') =>
      (.error { reason := "device was already opened",
                error_code := .AlreadyOpened }, s')
  | (.ok false, s') =>
      match getIntDeviceConfigOpen d.index c.index s' with
      | (.error e, s'') => (.error e, s'')
      | (.ok handle, s'') => (.ok { handle := some handle }, s'')

/-- `DeviceHandle::close_ref` (`src/lib.rs`): if the identifier is
present, it is cleared first and the single native `FDwfDeviceClose` is
issued; with the identifier already cleared it performs no native call and
returns `Ok(())`. -/
def DeviceHandle.close_ref (d : DeviceHandle) (s : NativeState) :
    Except WaveFormsError Unit × DeviceHandle × NativeState :=
  match d.handle with
  | some h =>
      let (r, s') := callDeviceClose h s
      (r, { handle := none }, s')
  | none => (.ok (), d, s)

/-- `Drop for DeviceHandle` (`src/lib.rs`): runs `close_ref` and unwraps
the result; `none` models the panic on a failing release at drop time. -/
def DeviceHandle.drop (d : DeviceHandle) (s : NativeState) :
    Option (DeviceHandle × NativeState) :=
  match d.close_ref s with
  | (.ok _, d', s') => some (d', s')
  | (.error _, _, _) => none

/-- `DeviceHandle::close` (`src/lib.rs`), which consumes the handle: it
delegates to `close_ref`, after which the moved-in handle (identifier now
cleared) is dropped at the end of `close`, running `close_ref` a second
time as a no-op.  The composition is modelled explicitly. -/
def DeviceHandle.close (d : DeviceHandle) (s : NativeState) :
    Except WaveFormsError Unit × Option NativeState :=
  let (r, d', s') := d.close_ref s
  (r, (d'.drop s').map Prod.snd)

/-! ### DeviceHandle operations and front ends (`src/lib.rs`)

Every `DeviceHandle` operation begins with `self.handle.unwrap()`; `none`
models the panic of that unwrap.  The native call each operation then
issues is run against one `NativeResp`. -/

/-- Front end `Oscilloscope` (`src/analog/scope.rs`): carries the session
identifier, borrowed from the handle. -/
structure Oscilloscope where
  device_handle : Int
deriving DecidableEq, Repr

/-- Front end `WaveformGenerator` (`src/analog/gen.rs`). -/
structure WaveformGenerator where
  device_handle : Int
deriving DecidableEq, Repr

/-- Front end `LogicAnalyzer` (`src/digital/analyzer.rs`). -/
structure LogicAnalyzer where
  device_handle : Int
deriving DecidableEq, Repr

/-- Front end `PatternGenerator` (`src/digital/gen.rs`). -/
structure PatternGenerator where
  device_handle : Int
deriving DecidableEq, Repr

/-- Front end `Protocols` (`src/digital/protocols.rs`). -/
structure Protocols where
  device_handle : Int
deriving DecidableEq, Repr

/-- `DeviceHandle::trigger_sources`:
`SupportedTriggerSources::from(get_int!(FDwfDeviceTriggerInfo
self.handle.unwrap())?)`. -/
def DeviceHandle.trigger_sources (d : DeviceHandle) (r : NativeResp) :
    Option (Except WaveFormsError (TriggerSource → Bool)) :=
  match d.handle with
  | none => none
  | some _ => some ((getIntR r).map (fun x => SupportedTriggerSources.ofMask x.toNat))

/-- `DeviceHandle::get_trigger`: `get_int!(FDwfDeviceTriggerGet
self.handle.unwrap(), pin).and_then(TriggerSource::try_from)`. -/
def DeviceHandle.get_trigger (d : DeviceHandle) (_pin : Int) (r : NativeResp) :
    Option (Except WaveFormsError TriggerSource) :=
  match d.handle with
  | none => none
  | some _ => some ((getIntR r).bind TriggerSource.tryFrom)

/-- `DeviceHandle::set_trigger`: `call!(FDwfDeviceTriggerSet
self.handle.unwrap(), pin, src.into())`. -/
def DeviceHandle.set_trigger (d : DeviceHandle) (_pin : Int)
    (_src : TriggerSource) (r : NativeResp) :
    Option (Except WaveFormsError Unit) :=
  match d.handle with
  | none => none
  | some _ => some (callR r)

/-- `DeviceHandle::trigger_pc`: `call!(FDwfDeviceTriggerPC
self.handle.unwrap())`. -/
def DeviceHandle.trigger_pc (d : DeviceHandle) (r : NativeResp) :
    Option (Except WaveFormsError Unit) :=
  match d.handle with
  | none => none
  | some _ => some (callR r)

/-- `DeviceHandle::oscilloscope`: unwraps the identifier and returns the
borrowed front end. -/
def DeviceHandle.oscilloscope (d : DeviceHandle) :
    Option (Except WaveFormsError Oscilloscope) :=
  match d.handle with
  | none => none
  | some h => some (.ok { device_handle := h })

/-- `DeviceHandle::waveform_generator`. -/
def DeviceHandle.waveform_generator (d : DeviceHandle) :
    Option (Except WaveFormsError WaveformGenerator) :=
  match d.handle with
  | none => none
  | some h => some (.ok { device_handle := h })

/-- `DeviceHandle::logic_analyzer`. -/
def DeviceHandle.logic_analyzer (d : DeviceHandle) :
    Option (Except WaveFormsError LogicAnalyzer) :=
  match d.handle with
  | none => none
  | some h => some (.ok { device_handle := h })

/-- `DeviceHandle::pattern_generator`. -/
def DeviceHandle.pattern_generator (d : DeviceHandle) :
    Option (Except WaveFormsError PatternGenerator) :=
  match d.handle with
  | none => none
  | some h => some (.ok { device_handle := h })

/-- `DeviceHandle::protocols`. -/
def DeviceHandle.protocols (d : DeviceHandle) :
    Option (Except WaveFormsError Protocols) :=
  match d.handle with
  | none => none
  | some h => some (.ok { device_handle := h })

/-- Handle states reachable through the public API: a `DeviceHandle` is
constructed only by `Device::open` and `Device::open_with_config`
(`src/lib.rs`); no public operation assigns the `handle` field (accessors
and front-end constructors borrow and leave it untouched), and `close`
consumes the handle, so a closed handle is no longer reachable. -/
inductive Reachable : DeviceHandle → Prop where
  | opened (d : Device) (s : NativeState) (dh : DeviceHandle) (s' : NativeState)
      (hopen : d.openDev s = (.ok dh, s')) : Reachable dh
  | openedWithConfig (d : Device) (c : Config) (s : NativeState)
      (dh : DeviceHandle) (s' : NativeState)
      (hopen : d.open_with_config c s = (.ok dh, s')) : Reachable dh

/-! ### Status queries, version, discovery steps -/

/-- `Oscilloscope::state` (`src/analog/scope.rs`): the status query with
the read-data flag fixed to 0 (no sample transfer), decoded by
`InstrumentState::try_from`; the issued native call is returned alongside
the result. -/
def Oscilloscope.state (o : Oscilloscope) (r : NativeResp) :
    Except WaveFormsError InstrumentState × List NCall :=
  ((getIntR r).bind InstrumentState.tryFrom,
    [.analogInStatus o.device_handle false])

/-- `Oscilloscope::fetch` (`src/analog/scope.rs`): the same status query
with the read-data flag fixed to 1 (samples are transferred), decoded by
`InstrumentState::try_from`. -/
def Oscilloscope.fetch (o : Oscilloscope) (r : NativeResp) :
    Except WaveFormsError InstrumentState × List NCall :=
  ((getIntR r).bind InstrumentState.tryFrom,
    [.analogInStatus o.device_handle true])

/-- `LogicAnalyzer::state` (`src/digital/analyzer.rs`) up to its status
query: `get_int!(FDwfDigitalInStatus self.device_handle, 0)` — read-data
flag 0.  The source then applies `InstrumentState::from` to the raw value,
a conversion the macros never generate (only `TryFrom` exists), so the
decoding step has no compilable embedding; the raw query is modelled. -/
def LogicAnalyzer.state_raw (la : LogicAnalyzer) (r : NativeResp) :
    Except WaveFormsError Int × List NCall :=
  (getIntR r, [.digitalInStatus la.device_handle false])

/-- `PatternGenerator::state` (`src/digital/gen.rs`) up to its status
query: `get_int!(FDwfDigitalOutStatus self.device_handle)`.  As with the
logic analyzer, the source then applies the nonexistent
`InstrumentState::from`; the raw query is modelled. -/
def PatternGenerator.state_raw (p : PatternGenerator) (r : NativeResp) :
    Except WaveFormsError Int × List NCall :=
  (getIntR r, [.digitalOutStatus p.device_handle])

/-- `version()` (`src/lib.rs`): `get_string!(FDwfGetVersion).unwrap()` —
the fallible result is unwrapped, so a native failure panics (`none`)
instead of returning the structured error (the signature has no error
channel). -/
def version (flag : Int) (out : String) (slot : GlobalSlot) : Option String :=
  (getStringR flag out slot).toOption

/-- First step of `iter_devices()` (`src/lib.rs`):
`get_int!(FDwfEnum DetectFilter::All.into()).unwrap()` — the device-count
query is unwrapped, so a native failure panics (`none`). -/
def iterDevicesCount (r : NativeResp) : Option Int :=
  (getIntR r).toOption

/-- Per-index device-type decoding in `iter_devices()` (`src/lib.rs`):
`DeviceType::try_from(id).unwrap()` — panics (`none`) on a wire code
outside the closed five-variant set. -/
def discoveredDeviceType (id : Int) : Option DeviceType :=
  (DeviceType.tryFrom id).toOption

/-! ### Helper lemmas -/

/-- Semantics of the supported-set field initializer: the field is true
iff the bit at the variant's wire value is set in the mask, or the wire
value is 0. -/
theorem supportBit_eq_testBit (x k : Nat) :
    supportBit x k = true ↔ (x.testBit k ∨ k = 0) := by
  unfold supportBit
  rw [Nat.one_shiftLeft, Nat.and_two_pow]
  cases h : x.testBit k <;> simp [h]

/-- A successful `Device::open` always constructs the handle with a
present identifier. -/
theorem openDev_ok_isSome (d : Device) (s : NativeState) (dh : DeviceHandle)
    (s' : NativeState) (hopen : d.openDev s = (.ok dh, s')) :
    dh.handle.isSome := by
  unfold Device.openDev getBoolEnumDeviceIsOpened natEnumDeviceIsOpened
    getIntDeviceOpen natDeviceOpen errGet at hopen
  by_cases hmem : d.index ∈ s.opened <;> simp [hmem] at hopen
  obtain ⟨rfl, -⟩ := hopen
  rfl

/-- A successful `Device::open_with_config` always constructs the handle
with a present identifier. -/
theorem open_with_config_ok_isSome (d : Device) (c : Config) (s : NativeState)
    (dh : DeviceHandle) (s' : NativeState)
    (hopen : d.open_with_config c s = (.ok dh, s')) :
    dh.handle.isSome := by
  unfold Device.open_with_config getBoolEnumDeviceIsOpened natEnumDeviceIsOpened
    getIntDeviceConfigOpen natDeviceConfigOpen errGet at hopen
  by_cases hmem : d.index ∈ s.opened <;> simp [hmem] at hopen
  obtain ⟨rfl, -⟩ := hopen
  rfl

/-- Every handle reachable through the public API holds a present
identifier. -/
theorem reachable_isSome (dh : DeviceHandle) (hr : Reachable dh) :
    dh.handle.isSome := by
  cases hr with
  | opened d s dh' s' hopen => exact openDev_ok_isSome d s _ s' hopen
  | openedWithConfig d c s dh' s' hopen =>
      exact open_with_config_ok_isSome d c s _ s' hopen

/-! ### Claim theorems -/

/-- Claim C1: for every closed-set enumeration type generated by the
wrapper (DetectFilter, DeviceType, TriggerSource, AcquisitionMode,
InstrumentState, SamplingSlope, Filter, TriggerType, TriggerLength,
ClockSource, SampleMode, Mode, Type, Idle, Bitrate) and every variant,
converting the variant to its native integer and converting that integer
back yields `Ok` of the same variant. -/
theorem enumRoundTripIdentity :
    (∀ v : DetectFilter, DetectFilter.tryFrom v.into = .ok v) ∧
    (∀ v : DeviceType, DeviceType.tryFrom v.into = .ok v) ∧
    (∀ v : TriggerSource, TriggerSource.tryFrom v.into = .ok v) ∧
    (∀ v : AcquisitionMode, AcquisitionMode.tryFrom v.into = .ok v) ∧
    (∀ v : InstrumentState, InstrumentState.tryFrom v.into = .ok v) ∧
    (∀ v : SamplingSlope, SamplingSlope.tryFrom v.into = .ok v) ∧
    (∀ v : Filter, Filter.tryFrom v.into = .ok v) ∧
    (∀ v : TriggerType, TriggerType.tryFrom v.into = .ok v) ∧
    (∀ v : TriggerLength, TriggerLength.tryFrom v.into = .ok v) ∧
    (∀ v : ClockSource, ClockSource.tryFrom v.into = .ok v) ∧
    (∀ v : SampleMode, SampleMode.tryFrom v.into = .ok v) ∧
    (∀ v : Mode, Mode.tryFrom v.into = .ok v) ∧
    (∀ v : DigitalOutType, DigitalOutType.tryFrom v.into = .ok v) ∧
    (∀ v : Idle, Idle.tryFrom v.into = .ok v) ∧
    (∀ v : Bitrate, Bitrate.tryFrom v.into = .ok v) := by
  refine ⟨?_, ?_, ?_, ?_, ?_, ?_, ?_, ?_, ?_, ?_, ?_, ?_, ?_, ?_, ?_⟩ <;>
    intro v <;> cases v <;> rfl

/-- Claim C2 (settled as a code bug — see the results): the
macro-generated fallible conversion turns an unknown wire code into the
`UnknownVariant` error, never a default variant; the logic-analyzer and
pattern-generator state queries and the digital getters, however, invoke
an infallible `From` conversion that the macros never generate, so no
`UnknownVariant` failure can arise at those sites. -/
theorem unknownWireCodeYieldsUnknownVariant :
    InstrumentState.tryFrom 6 =
      .error { error_code := .UnknownVariant,
               reason := unknownVariantReason 6 ("InstrumentState") } ∧
    ClockSource.tryFrom 3 =
      .error { error_code := .UnknownVariant,
               reason := unknownVariantReason 3 ("ClockSource") } :=
  ⟨rfl, rfl⟩

/-- Claim C3: with the index already opened, `Device::open` and
`Device::open_with_config` return the `AlreadyOpened` error directly after
the explicit `FDwfEnumDeviceIsOpened` check — the trace gains only that
one query (no native open call), and the opened-session bookkeeping is
untouched, so the first handle is unaffected. -/
theorem openFailsFastWhenAlreadyOpened (d : Device) (s : NativeState)
    (hmem : d.index ∈ s.opened) :
    (d.openDev s =
      (.error { error_code := .AlreadyOpened,
                reason := "device was already opened" },
        { s with slot := { code := dwfercNoErc, msg := "" },
                 trace := s.trace ++ [.enumIsOpened d.index] })) ∧
    (∀ c : Config, d.open_with_config c s =
      (.error { error_code := .AlreadyOpened,
                reason := "device was already opened" },
        { s with slot := { code := dwfercNoErc, msg := "" },
                 trace := s.trace ++ [.enumIsOpened d.index] })) := by
  constructor
  · unfold Device.openDev getBoolEnumDeviceIsOpened natEnumDeviceIsOpened
    simp [hmem]
  · intro c
    unfold Device.open_with_config getBoolEnumDeviceIsOpened natEnumDeviceIsOpened
    simp [hmem]

/-- Claim C3 witness: device index 0 is already opened; the second open
fails with `AlreadyOpened` after the lone `FDwfEnumDeviceIsOpened`
query. -/
theorem openFailsFastWhenAlreadyOpenedWitness :
    Device.openDev { index := 0 }
        { opened := [0], nextHandle := 1,
          slot := { code := 0, msg := "" }, trace := [] } =
      (.error { error_code := .AlreadyOpened,
                reason := "device was already opened" },
        { opened := [0], nextHandle := 1,
          slot := { code := 0, msg := "" }, trace := [.enumIsOpened 0] }) :=
  (openFailsFastWhenAlreadyOpened { index := 0 }
    { opened := [0], nextHandle := 1, slot := { code := 0, msg := "" },
      trace := [] } (by decide)).1

/-- Claim C4: over the lifetime of an open handle exactly one native
`FDwfDeviceClose` is issued — the explicit-close path (close, then the
consumed handle's drop) and the plain drop path each add exactly one
release to the trace — and `close_ref` on a cleared handle (a second close
or a drop after close) performs no native call and returns `Ok(())`. -/
theorem closeReleasesExactlyOnce (h : Int) (s : NativeState) :
    (DeviceHandle.close { handle := some h } s =
      (.ok (), some { s with slot := { code := dwfercNoErc, msg := "" },
                             trace := s.trace ++ [.deviceClose h] })) ∧
    (DeviceHandle.drop { handle := some h } s =
      some ({ handle := none },
        { s with slot := { code := dwfercNoErc, msg := "" },
                 trace := s.trace ++ [.deviceClose h] })) ∧
    (∀ s' : NativeState,
      DeviceHandle.close_ref { handle := none } s' =
        (.ok (), { handle := none }, s')) ∧
    (∀ s' : NativeState,
      DeviceHandle.drop { handle := none } s' =
        some ({ handle := none }, s')) :=
  ⟨rfl, rfl, fun _ => rfl, fun _ => rfl⟩

/-- Claim C5: for every supported-set type and every bitmask, the field
for a variant of wire value k is true iff bit k of the mask is set, except
that a variant of wire value 0 is always marked supported. -/
theorem supportedSetMatchesBitmask :
    (∀ (x : Nat) (v : TriggerSource),
      SupportedTriggerSources.ofMask x v = true ↔
        (x.testBit v.into.toNat ∨ v.into = 0)) ∧
    (∀ (x : Nat) (v : AcquisitionMode),
      SupportedAcquisitionModes.ofMask x v = true ↔
        (x.testBit v.into.toNat ∨ v.into = 0)) ∧
    (∀ (x : Nat) (v : SamplingSlope),
      SupportedSamplingSlopes.ofMask x v = true ↔
        (x.testBit v.into.toNat ∨ v.into = 0)) ∧
    (∀ (x : Nat) (v : Filter),
      SupportedFilters.ofMask x v = true ↔
        (x.testBit v.into.toNat ∨ v.into = 0)) ∧
    (∀ (x : Nat) (v : TriggerType),
      SupportedTriggerTypes.ofMask x v = true ↔
        (x.testBit v.into.toNat ∨ v.into = 0)) ∧
    (∀ (x : Nat) (v : TriggerCondition),
      SupportedTriggerConditions.ofMask x v = true ↔
        (x.testBit v.into.toNat ∨ v.into = 0)) ∧
    (∀ (x : Nat) (v : TriggerLength),
      SupportedTriggerLengths.ofMask x v = true ↔
        (x.testBit v.into.toNat ∨ v.into = 0)) ∧
    (∀ (x : Nat) (v : ClockSource),
      SupportedClockSources.ofMask x v = true ↔
        (x.testBit v.into.toNat ∨ v.into = 0)) ∧
    (∀ (x : Nat) (v : SampleMode),
      SupportedSampleModes.ofMask x v = true ↔
        (x.testBit v.into.toNat ∨ v.into = 0)) ∧
    (∀ (x : Nat) (v : Mode),
      SupportedModes.ofMask x v = true ↔
        (x.testBit v.into.toNat ∨ v.into = 0)) ∧
    (∀ (x : Nat) (v : DigitalOutType),
      SupportedTypes.ofMask x v = true ↔
        (x.testBit v.into.toNat ∨ v.into = 0)) ∧
    (∀ (x : Nat) (v : Idle),
      SupportedIdles.ofMask x v = true ↔
        (x.testBit v.into.toNat ∨ v.into = 0)) := by
  refine ⟨?_, ?_, ?_, ?_, ?_, ?_, ?_, ?_, ?_, ?_, ?_, ?_⟩ <;>
    intro x v <;> cases v <;>
    simp [SupportedTriggerSources.ofMask, SupportedAcquisitionModes.ofMask,
      SupportedSamplingSlopes.ofMask, SupportedFilters.ofMask,
      SupportedTriggerTypes.ofMask, SupportedTriggerConditions.ofMask,
      SupportedTriggerLengths.ofMask, SupportedClockSources.ofMask,
      SupportedSampleModes.ofMask, SupportedModes.ofMask,
      SupportedTypes.ofMask, SupportedIdles.ofMask,
      TriggerSource.into, AcquisitionMode.into, SamplingSlope.into,
      Filter.into, TriggerType.into, TriggerCondition.into,
      TriggerLength.into, ClockSource.into, SampleMode.into, Mode.into,
      DigitalOutType.into, Idle.into,
      trigsrcNone, trigsrcPC, trigsrcDetectorAnalogIn,
      trigsrcDetectorDigitalIn, trigsrcAnalogIn, trigsrcDigitalIn,
      trigsrcAnalogOut1, trigsrcAnalogOut2, trigsrcAnalogOut3,
      trigsrcAnalogOut4, trigsrcExternal1, trigsrcExternal2,
      trigsrcExternal3, trigsrcExternal4, trigsrcHigh, trigsrcLow,
      acqmodeSingle, acqmodeScanShift, acqmodeScanScreen, acqmodeRecord,
      acqmodeOvers, acqmodeSingle1, DwfTriggerSlopeRise,
      DwfTriggerSlopeFall, DwfTriggerSlopeEither, filterDecimate,
      filterAverage, filterMinMax, trigtypeEdge, trigtypePulse,
      trigtypeTransition, trigtypeWindow, triglenLess, triglenTimeout,
      triglenMore, DwfDigitalInClockSourceInternal,
      DwfDigitalInClockSourceExternal, DwfDigitalInClockSourceExternal2,
      DwfDigitalInSampleModeSimple, DwfDigitalInSampleModeNoise,
      DwfDigitalOutOutputPushPull, DwfDigitalOutOutputOpenDrain,
      DwfDigitalOutOutputOpenSource, DwfDigitalOutOutputThreeState,
      DwfDigitalOutTypePulse, DwfDigitalOutTypeCustom,
      DwfDigitalOutTypeRandom, DwfDigitalOutTypeROM,
      DwfDigitalOutTypeState, DwfDigitalOutTypePlay,
      DwfDigitalOutIdleInit, DwfDigitalOutIdleLow, DwfDigitalOutIdleHigh,
      DwfDigitalOutIdleZet, supportBit_eq_testBit]

/-- Claim C6: when a native call fails, the protocol reads the global
last-error slot immediately — the only native calls after the failing
invoke are `FDwfGetLastError` and `FDwfGetLastErrorMsg` — and the returned
error carries exactly the code (mapped by `WaveFormsErrorCode::get`) and
message the failing call left in the slot. -/
theorem failingCallReadsErrorSlotImmediately (flag out : Int)
    (slotAfter : GlobalSlot) (hfail : flag = 0) :
    getIntTraced flag out slotAfter =
      (.error { error_code := WaveFormsErrorCode.get slotAfter.code,
                reason := slotAfter.msg },
        slotAfter, [.invoke, .getLastError, .getLastErrorMsg]) := by
  subst hfail
  rfl

/-- Claim C6 witness: a failing call that left code 3 (already opened) and
a concrete message in the slot. -/
theorem failingCallReadsErrorSlotImmediatelyWitness :
    getIntTraced 0 7 { code := 3, msg := "Devices are busy" } =
      (.error { error_code := .AlreadyOpened, reason := "Devices are busy" },
        { code := 3, msg := "Devices are busy" },
        [.invoke, .getLastError, .getLastErrorMsg]) :=
  failingCallReadsErrorSlotImmediately 0 7
    { code := 3, msg := "Devices are busy" } rfl

/-- Claim C7 counterexample: on a failing native call, `version()` and
the device-count query of `iter_devices()` do not return the structured
error — they unwrap and panic (modelled `none`); `version`'s signature has
no error channel at all. -/
theorem versionPanicsOnNativeFailure :
    version 0 ("3.16.3")
        { code := dwfercApiLockTimeout, msg := "api lock timeout" } = none ∧
    iterDevicesCount
        { flag := 0, out := 0,
          slot := { code := dwfercApiLockTimeout, msg := "api lock timeout" } } =
      none :=
  ⟨rfl, rfl⟩

/-- Claim C7 as amended: `Result`-returning operations propagate the
structured `WaveFormsError` to their immediate caller on native failure,
but `version()` and `iter_devices()` unwrap native results and panic
(terminate) instead of returning the error. -/
theorem errorPropagationExceptUnwrappingOps :
    (∀ (out : String) (slot : GlobalSlot), version 0 out slot = none) ∧
    (∀ r : NativeResp, r.flag = 0 → iterDevicesCount r = none) ∧
    (∀ (o : Oscilloscope) (r : NativeResp), r.flag = 0 →
      (o.state r).1 = .error (WaveFormsError.get r.slot)) ∧
    (∀ (h : Int) (pin : Int) (r : NativeResp), r.flag = 0 →
      DeviceHandle.get_trigger { handle := some h } pin r =
        some (.error (WaveFormsError.get r.slot))) := by
  refine ⟨fun out slot => rfl, fun r hr => ?_, fun o r hr => ?_,
    fun h pin r hr => ?_⟩ <;>
    simp [iterDevicesCount, getIntR, Oscilloscope.state,
      DeviceHandle.get_trigger, Except.toOption, Except.bind, hr]

/-- Claim C7 witness (for the amended claim): a concrete failing response
— `version` panics while the oscilloscope state query returns the
structured error. -/
theorem errorPropagationExceptUnwrappingOpsWitness :
    version 0 ("") { code := 2, msg := "m" } = none ∧
    (Oscilloscope.state { device_handle := 1 }
        { flag := 0, out := 0, slot := { code := 4, msg := "nope" } }).1 =
      .error { error_code := .NotSupported, reason := "nope" } :=
  ⟨errorPropagationExceptUnwrappingOps.1 ("") { code := 2, msg := "m" },
   errorPropagationExceptUnwrappingOps.2.2.1 { device_handle := 1 }
     { flag := 0, out := 0, slot := { code := 4, msg := "nope" } } rfl⟩

/-- Claim C8 counterexample: at native device-type code 5 — not the wire
value of any known variant — discovery produces no `Device` at all: the
`unwrap` of the `UnknownVariant` error panics (modelled `none`); the
compiled `DeviceType` has no `Unknown` catch-all variant. -/
theorem discoveryPanicsOnUnknownDeviceTypeCode :
    discoveredDeviceType 5 = none ∧
    DeviceType.tryFrom 5 =
      .error { error_code := .UnknownVariant,
               reason := unknownVariantReason 5 ("DeviceType") } :=
  ⟨rfl, rfl⟩

/-- Claim C8 as amended: the compiled `DeviceType` is the closed
five-variant set; discovery yields a typed device exactly for the five
known wire codes (1, 2, 3, 4, 6) and panics on every other code. -/
theorem discoveredDeviceTypeClosedSet :
    ∀ id : Int,
      (discoveredDeviceType id).isSome ↔
        (id = devidEExplorer ∨ id = devidDiscovery ∨ id = devidDiscovery2 ∨
          id = devidDDiscovery ∨ id = devidADP3X50) := by
  intro id
  unfold discoveredDeviceType DeviceType.tryFrom
  split_ifs <;> simp_all [Except.toOption]

/-- Claim C9 (settled as a code bug — see the results): the oscilloscope's
`state()` issues the status call with the read-data flag false and
`fetch()` issues the same call with the flag true; the logic analyzer's
`state()` also passes flag false, but the source has no
`LogicAnalyzer::fetch` although lib.rs documentation references it. -/
theorem statusQueryReadDataFlags :
    ∀ (o : Oscilloscope) (la : LogicAnalyzer) (r : NativeResp),
      (o.state r).2 = [.analogInStatus o.device_handle false] ∧
      (o.fetch r).2 = [.analogInStatus o.device_handle true] ∧
      (la.state_raw r).2 = [.digitalInStatus la.device_handle false] :=
  fun _ _ _ => ⟨rfl, rfl, rfl⟩

/-- Claim C10: every `DeviceHandle` reachable through the public API holds
a present session identifier — `open` constructs it as `Some` and only the
consuming `close` clears it — so the identifier `unwrap` at the start of
each handle operation (trigger accessors, front-end constructors) never
panics. -/
theorem reachableHandleOpsNeverPanic (dh : DeviceHandle) (hr : Reachable dh)
    (r : NativeResp) (pin : Int) (src : TriggerSource) :
    (dh.trigger_sources r).isSome ∧ (dh.get_trigger pin r).isSome ∧
    (dh.set_trigger pin src r).isSome ∧ (dh.trigger_pc r).isSome ∧
    dh.oscilloscope.isSome ∧ dh.waveform_generator.isSome ∧
    dh.logic_analyzer.isSome ∧ dh.pattern_generator.isSome ∧
    dh.protocols.isSome := by
  obtain ⟨h, hh⟩ := Option.isSome_iff_exists.mp (reachable_isSome dh hr)
  refine ⟨?_, ?_, ?_, ?_, ?_, ?_, ?_, ?_, ?_⟩ <;>
    simp [DeviceHandle.trigger_sources, DeviceHandle.get_trigger,
      DeviceHandle.set_trigger, DeviceHandle.trigger_pc,
      DeviceHandle.oscilloscope, DeviceHandle.waveform_generator,
      DeviceHandle.logic_analyzer, DeviceHandle.pattern_generator,
      DeviceHandle.protocols, hh]

/-- Claim C10 witness: the handle produced by a concrete successful open
(index 0 on an idle native state, identifier 1); its trigger-source query
does not panic. -/
theorem reachableHandleOpsNeverPanicWitness :
    ((DeviceHandle.mk (some 1)).trigger_sources
      { flag := 1, out := 0, slot := { code := 0, msg := "" } }).isSome :=
  (reachableHandleOpsNeverPanic { handle := some 1 }
    (Reachable.opened { index := 0 }
      { opened := [], nextHandle := 1, slot := { code := 0, msg := "" },
        trace := [] }
      { handle := some 1 }
      { opened := [0], nextHandle := 2, slot := { code := 0, msg := "" },
        trace := [.enumIsOpened 0, .deviceOpen 0] }
      (by rfl))
    { flag := 1, out := 0, slot := { code := 0, msg := "" } } 0 .Pc).1

end WaveForms
